import Mathlib

/-!
Verification of the EchoLens real-time audio-event pipeline
(`src/backend/echolens_api.py`) against its natural-language specification.

The relevant Python functions are shallowly embedded as executable Lean
definitions over `ℚ` (Python floats become exact rationals; the two places
where IEEE semantics are observable are noted inline), `List` (Python lists
and the FIFO `queue.Queue`), and explicit state passing (the module-level
globals `mock_db`, `audio_level_history`, `demo_mode`, `is_processing_audio`,
`is_demo_processing`, `last_restart_time` become fields of `PipelineState`).
External capabilities (YAMNet, Google speech recognition) are passed in as
per-iteration oracle values, matching the spec treating them as
external-capability boundaries.
-/

/-- Result of `detect_sound_direction` (echolens_api.py lines 287-291):
a dict with keys `angle`, `direction`, `confidence`. -/
structure DirectionResult where
  angle : ℚ
  direction : String
  confidence : ℚ
deriving Repr, DecidableEq

/-- The `epsilon = 1e-10` added to the denominator (line 265). -/
def epsilon : ℚ := 1 / 10000000000

/-- Mean absolute amplitude of one channel: `np.mean(np.abs(channel))`
(lines 261-262).  The empty-channel case (numpy would give `nan`) is never
exercised: frames from the input stream are nonempty. -/
def np_mean_abs (xs : List ℚ) : ℚ := (xs.map (fun x => |x|)).sum / (xs.length : ℚ)

/-- `ratio = left_energy / (right_energy + epsilon)` (line 268). -/
def energy_ratio (left_channel right_channel : List ℚ) : ℚ :=
  np_mean_abs left_channel / (np_mean_abs right_channel + epsilon)

/-- `detect_sound_direction` (lines 248-297).  The branch structure is the
source's: `ratio > 1.1` gives left, `ratio < 0.9` gives right, otherwise
center; `confidence = min(1.0, abs(1 - ratio) * 2)` in every branch.
One IEEE artifact is made explicit: when `ratio == 0.0` (silent left
channel) the source's `1/ratio` is numpy `+inf`, so `min(90, (1/ratio-1)*45)`
is `90` and the angle is `0`; in `ℚ` division by zero would instead give
`1/0 = 0`, so that case is written out.  The source's own
`except` fallback (`direction="unknown"`, lines 295-297) is reachable only
through a numpy-level error, which has no counterpart on exact rationals. -/
def detect_sound_direction (left_channel right_channel : List ℚ) : DirectionResult :=
  let q := energy_ratio left_channel right_channel
  if 11/10 < q then
    ⟨270 - min 90 ((q - 1) * 45), "left", min 1 (|1 - q| * 2)⟩
  else if q < 9/10 then
    ⟨90 - (if q = 0 then 90 else min 90 ((1 / q - 1) * 45)), "right", min 1 (|1 - q| * 2)⟩
  else
    ⟨0, "center", min 1 (|1 - q| * 2)⟩

/-- One multi-channel audio frame, stored per channel: `cols.length` is the
channel count `audio_data.shape[1]`, `cols[0]` is `audio_data[:, 0]`, and
`cols[1]` is `audio_data[:, 1]`.  Frames produced by the sounddevice input
stream are always 2-D arrays. -/
structure AudioFrame where
  cols : List (List ℚ)
deriving Repr, DecidableEq

/-- The direction information computed for a frame by `process_audio_chunk`
(lines 797-802): the default `{"angle": 0, "direction": "center",
"confidence": 0}` is kept unless the frame has at least two channels, in
which case `detect_sound_direction` runs on columns 0 and 1. -/
def frame_direction_info (f : AudioFrame) : DirectionResult :=
  match f.cols with
  | c0 :: c1 :: _ => detect_sound_direction c0 c1
  | _ => ⟨0, "center", 0⟩

/-- `MAX_AUDIO_HISTORY = 20` (line 227). -/
def MAX_AUDIO_HISTORY : ℕ := 20

/-- The last `n` elements of a list: Python's `l[-n:]`. -/
def lastN (n : ℕ) (l : List α) : List α := l.drop (l.length - n)

/-- One update of `audio_level_history` (lines 793-795): append the new
level, then if the length exceeds `MAX_AUDIO_HISTORY` keep only the last
`MAX_AUDIO_HISTORY` entries. -/
def record_level (h : List ℚ) (x : ℚ) : List ℚ :=
  let h' := h ++ [x]
  if MAX_AUDIO_HISTORY < h'.length then lastN MAX_AUDIO_HISTORY h' else h'

/-- One detection returned by `identify_sounds_with_yamnet`: a dict with keys
`sound` and `confidence` (consumed at lines 811-818). -/
structure SoundPred where
  sound : String
  confidence : ℚ
deriving Repr, DecidableEq

/-- A sound-alert sink entry (lines 813-819). -/
structure SoundAlert where
  timestamp : String
  sound : String
  confidence : ℚ
  direction : String
  angle : ℚ
deriving Repr, DecidableEq

/-- A transcription sink entry (lines 873-880). -/
structure Transcription where
  timestamp : String
  text : String
  emotion : String
  emotion_confidence : ℚ
  emotion_intensity : ℚ
  explanation : String
deriving Repr, DecidableEq

/-- The three `mock_db["user_preferences"]` toggles read by the pipeline
(lines 763, 769, 806, 836, 869); all default to true (lines 160-167). -/
structure Prefs where
  transcription_enabled : Bool
  sound_detection_enabled : Bool
  emotion_detection_enabled : Bool
deriving Repr, DecidableEq

/-- The module-level mutable globals of `echolens_api.py` gathered into one
record: the FIFO `audio_queue` (line 223), `audio_level_history` (line 226),
the two `mock_db` result sinks (lines 179-180), the user preferences, the
control flags `demo_mode` (line 235), `is_processing_audio` (line 233),
`is_demo_processing` (line 239), `last_restart_time` (line 237), and
counters for the live units of concurrency: `mic_threads` counts running
`audio_processing_thread` loops, `demo_threads` running
`demo_processing_thread` loops, and `speech_threads` dispatched
`process_speech` workers. -/
structure PipelineState where
  queue : List AudioFrame
  audio_level_history : List ℚ
  transcriptions : List Transcription
  sound_alerts : List SoundAlert
  prefs : Prefs
  demo_mode : Bool
  is_processing_audio : Bool
  is_demo_processing : Bool
  last_restart_time : ℚ
  mic_threads : ℕ
  demo_threads : ℕ
  speech_threads : ℕ
deriving Repr, DecidableEq

/-- The per-iteration environment of `process_audio_chunk` in live mode:
`now` is `datetime.now().isoformat()`; `audio_level` stands for
`np.sqrt(np.mean(audio_data ** 2))` (line 792), a measurement whose square
root has no exact rational counterpart; `energy_threshold` is
`recognizer.energy_threshold` at this instant (initialised to 1000,
line 218, but dynamically adapted); `yamnet` is the outcome of the
`identify_sounds_with_yamnet` stage: `.ok` with its detection list, or
`.error` when an exception escapes the stage. -/
structure StageEnv where
  now : String
  audio_level : ℚ
  energy_threshold : ℚ
  yamnet : Except String (List SoundPred)
deriving Repr

/-- Builds the sound-alert dict of lines 813-819. -/
def mk_alert (now : String) (d : DirectionResult) (p : SoundPred) : SoundAlert :=
  ⟨now, p.sound, p.confidence, d.direction, d.angle⟩

/-- The body of `process_audio_chunk(use_demo_mode=False)` — the live path,
lines 788-840, executed by the microphone loop (line 926).  Written in
`Except`: `.error` marks the point where a Python exception leaves the body,
carrying the mutated global state as it stands at the raise site (`queue.Empty`
is raised by the very first statement, line 789, before any mutation).
Database mirroring (lines 823-833) is the external persistence collaborator
and mutates none of this state. -/
def process_audio_chunk_body (env : StageEnv) (s : PipelineState) :
    Except (String × PipelineState) (Bool × PipelineState) :=
  match s.queue with
  | [] => .error ("queue.Empty", s)
  | frame :: rest =>
    let s1 := { s with queue := rest,
                       audio_level_history := record_level s.audio_level_history env.audio_level }
    let d := frame_direction_info frame
    match (if s1.prefs.sound_detection_enabled then env.yamnet else .ok []) with
    | .error e => .error (e, s1)
    | .ok dets =>
      let alerts := (dets.filter (fun p => 3/10 < p.confidence)).map (mk_alert env.now d)
      let s2 := { s1 with sound_alerts := s1.sound_alerts ++ alerts }
      let s3 := if s2.prefs.transcription_enabled = true ∧
                   env.energy_threshold / 100000 < env.audio_level
                then { s2 with speech_threads := s2.speech_threads + 1 }
                else s2
      .ok (true, s3)

/-- `process_audio_chunk(use_demo_mode=False)` with its exception handlers
(lines 841-845): `except queue.Empty: return False` and
`except Exception: ...; return False`. -/
def process_audio_chunk (env : StageEnv) (s : PipelineState) : Bool × PipelineState :=
  match process_audio_chunk_body env s with
  | .ok res => res
  | .error (_, s') => (false, s')

/-- The emotion dict consumed by `process_speech` (lines 866-879): the
result of `analyze_emotion_with_gemini` with the `.get` defaults applied. -/
structure EmotionDict where
  emotion : String
  confidence : ℚ
  intensity : ℚ
  explanation : String
deriving Repr, DecidableEq

/-- Per-dispatch environment of `process_speech`: `recognized` is the
outcome of `recognizer.recognize_google` — `.ok text`, or `.error` for
`sr.UnknownValueError`, `sr.RequestError` and any other exception; `emotion`
is what `analyze_emotion_with_gemini` returns when emotion detection is
enabled (that function traps its own failures and falls back, line 552-554,
so it always yields a dict). -/
structure SpeechEnv where
  now : String
  recognized : Except String String
  emotion : EmotionDict
deriving Repr

/-- `process_speech` (lines 847-908), run on its own thread: recognize
speech, optionally analyze emotion (line 868-870 defaults to
`{"emotion": "neutral", "confidence": 0}` with `.get` filling intensity 0
and explanation "" when emotion detection is disabled), and append the
transcription to the `mock_db["transcriptions"]` sink (line 883).  All
exception paths (lines 900-906) leave the state untouched. -/
def process_speech (env : SpeechEnv) (s : PipelineState) : PipelineState :=
  match env.recognized with
  | .error _ => s
  | .ok text =>
    if text ≠ "" ∧ 0 < text.trim.length then
      let ea := if s.prefs.emotion_detection_enabled then env.emotion else ⟨"neutral", 0, 0, ""⟩
      { s with transcriptions := s.transcriptions ++
          [⟨env.now, text, ea.emotion, ea.confidence, ea.intensity, ea.explanation⟩] }
    else s

/-- One scheduled event for the microphone loop `audio_processing_thread`
(lines 925-927): a tick runs `process_audio_chunk(False)`; a stop is the
effect of the `/api/stop` route flipping `is_processing_audio` (line 1186). -/
inductive LoopEvent where
  | tick (env : StageEnv)
  | stop
deriving Repr

/-- The `while is_processing_audio` loop of `audio_processing_thread`
(lines 925-927), driven by a finite schedule of events: before consuming
each event the loop checks the flag, exactly as the `while` condition does. -/
def run_loop : List LoopEvent → PipelineState → PipelineState
  | [], s => s
  | ev :: evs, s =>
    if s.is_processing_audio then
      match ev with
      | .tick env => run_loop evs (process_audio_chunk env s).2
      | .stop => run_loop evs { s with is_processing_audio := false }
    else s

/-- JSON body returned by `/api/set-demo-mode` (lines 1042-1046, 1077-1080):
`success`, optional `error` message, and the current `demo_mode`. -/
structure SetModeResponse where
  success : Bool
  errmsg : Option String
  demo_mode : Bool
deriving Repr, DecidableEq

/-- `set_demo_mode` (lines 1030-1087).  `new_mode` is the parsed
`data.get('demo_mode', False)`; `now` is `time.time()`.  The throttle test
(line 1041) is Python truthiness of `last_restart_time` plus the 2-second
window.  On an accepted change of mode the flags are updated exactly as in
the source; starting `demo_processing_thread` (line 1064) is counted in
`demo_threads` (the spawned thread itself later sets `is_demo_processing`,
line 940, an effect outside this call). -/
def set_demo_mode (new_mode : Bool) (now : ℚ) (s : PipelineState) :
    SetModeResponse × PipelineState :=
  if s.last_restart_time ≠ 0 ∧ now - s.last_restart_time < 2 then
    (⟨false, some "Please wait before changing mode again", s.demo_mode⟩, s)
  else if new_mode ≠ s.demo_mode then
    let s1 := { s with demo_mode := new_mode }
    let s2 :=
      if new_mode then
        let sa := if s1.is_processing_audio then { s1 with is_processing_audio := false } else s1
        if sa.is_demo_processing = false then { sa with demo_threads := sa.demo_threads + 1 }
        else sa
      else
        if s1.is_demo_processing then { s1 with is_demo_processing := false } else s1
    let s3 := { s2 with last_restart_time := now }
    (⟨true, none, s3.demo_mode⟩, s3)
  else
    (⟨true, none, s.demo_mode⟩, s)

/-- JSON body returned by `/api/start` and `/api/stop` (lines 1144-1191):
a `status`, an optional `message`, and an optional `demo_mode` echo. -/
structure StartResponse where
  status : String
  message : Option String
  demo_mode : Option Bool
deriving Repr, DecidableEq

/-- `start_processing` (lines 1144-1177), the `/api/start` route.  The
demo-mode guard (line 1150) precedes every other check.  Spawning
`audio_processing_thread` (line 1163) is counted in `mic_threads`; the
spawned thread itself later sets `is_processing_audio` (line 923). -/
def start_processing (now : ℚ) (s : PipelineState) : StartResponse × PipelineState :=
  if s.demo_mode then
    (⟨"ignored", some "Cannot start microphone in demo mode", some s.demo_mode⟩, s)
  else if s.is_processing_audio = false then
    if 2 < now - s.last_restart_time then
      (⟨"started", none, some s.demo_mode⟩,
       { s with last_restart_time := now, mic_threads := s.mic_threads + 1 })
    else
      (⟨"throttled", some "Please wait before restarting", none⟩, s)
  else
    (⟨"already_running", none, some s.demo_mode⟩, s)

/-- `stop_processing` (lines 1179-1191), the `/api/stop` route: clears
`is_processing_audio` only when it is set (the running loop observes the
cleared flag and exits after its current iteration). -/
def stop_processing (s : PipelineState) : StartResponse × PipelineState :=
  if s.is_processing_audio then
    (⟨"stopped", none, none⟩, { s with is_processing_audio := false })
  else
    (⟨"not_running", none, none⟩, s)

/-- Whether the Python expression `keyword in text` holds at the start of
`text`: character-prefix test. -/
def leadsWith : List Char → List Char → Bool
  | [], _ => true
  | _ :: _, [] => false
  | k :: ks, t :: ts => k == t && leadsWith ks ts

/-- Python's substring test `keyword in text` on character lists. -/
def occursIn : List Char → List Char → Bool
  | kw, [] => kw.isEmpty
  | kw, t :: ts => leadsWith kw (t :: ts) || occursIn kw ts

/-- Python's `text.lower()` (line 567), restricted to the ASCII characters
that occur in the keyword table. -/
def py_lower (t : String) : String := ⟨t.data.map Char.toLower⟩

/-- The fixed `emotion_keywords` table of
`provide_fallback_emotion_analysis` (lines 570-578), in source order —
Python dicts preserve insertion order, which is the category-iteration
order used for scoring and tie-breaking. -/
def emotion_keywords : List (String × List String) := [
  ("happy", ["happy", "joy", "glad", "excellent", "great", "wonderful", "love", "yay", "smile"]),
  ("excited", ["excited", "amazing", "wow", "awesome", "incredible", "thrilled"]),
  ("sad", ["sad", "sorry", "unfortunate", "miss", "regret", "disappoint", "cry"]),
  ("angry", ["angry", "mad", "frustrat", "annoyed", "hate", "upset", "furious"]),
  ("surprised", ["surprise", "shock", "unexpected", "woah", "whoa", "oh my"]),
  ("confused", ["confused", "unclear", "don\x27t understand", "what?", "huh?", "lost"]),
  ("neutral", ["okay", "fine", "alright", "so", "and", "the", "a"])]

/-- The score of one category (lines 582-587): the number of its keywords
that occur as substrings of the lowered text. -/
def keyword_score (text : String) (kws : List String) : ℕ :=
  kws.countP (fun k => occursIn k.data text.data)

/-- `emotion_scores` (lines 581-587), in table order. -/
def emotion_scores (text : String) : List (String × ℕ) :=
  emotion_keywords.map (fun p => (p.1, keyword_score text p.2))

/-- Python's `max(emotion_scores, key=emotion_scores.get)` (line 596): the
first key attaining the maximal score, in iteration order. -/
def argmax_first : List (String × ℕ) → String × ℕ
  | [] => ("", 0)
  | p :: rest =>
    let b := argmax_first rest
    if p.2 < b.2 then b else p

/-- The dict returned by `provide_fallback_emotion_analysis`
(lines 601-607). -/
structure EmotionAnalysis where
  emotion : String
  confidence : ℚ
  intensity : ℚ
  explanation : String
  source : String
deriving Repr, DecidableEq

/-- `provide_fallback_emotion_analysis` (lines 556-607): lower the text,
score each category by keyword occurrences, return neutral/0.5 when every
score is zero, otherwise the first maximal category with
`confidence = min(0.7, score / (total_score + 1) * 0.7)`; in both cases
`intensity = confidence * 0.8`. -/
def provide_fallback_emotion_analysis (text0 : String) : EmotionAnalysis :=
  let text := py_lower text0
  let scores := emotion_scores text
  if scores.all (fun p => p.2 == 0) then
    ⟨"neutral", 1/2, (1/2) * (8/10), "No clear emotion markers detected in text", "fallback"⟩
  else
    let pr := argmax_first scores
    let total : ℕ := (scores.map (fun p => p.2)).sum
    let conf : ℚ := min (7/10) ((pr.2 : ℚ) / ((total : ℚ) + 1) * (7/10))
    ⟨pr.1, conf, conf * (8/10),
     "Basic keyword detection found " ++ pr.1 ++ " indicators", "fallback"⟩

/-- A concrete per-iteration environment: one YAMNet detection, `doorbell`
with confidence 0.9, and a silent signal level. -/
def c1_env : StageEnv := ⟨"t", 0, 1000, .ok [⟨"doorbell", 9/10⟩]⟩

/-- A concrete pipeline state: 101 queued one-channel frames, empty history
and sinks, sound detection on, transcription off, live mode with the
microphone loop running. -/
def c1_s0 : PipelineState :=
  ⟨List.replicate 101 ⟨[[0]]⟩, [], [], [], ⟨false, true, true⟩, false, true, false, 0, 1, 0, 0⟩

/-! ## Helper lemmas -/

theorem lastN_of_le {l : List α} {n : ℕ} (h : l.length ≤ n) : lastN n l = l := by
  simp [lastN, Nat.sub_eq_zero_of_le h]

theorem lastN_length (n : ℕ) (l : List α) : (lastN n l).length = min n l.length := by
  simp [lastN]
  omega

theorem lastN_lastN {m n : ℕ} (h : m ≤ n) (l : List α) : lastN m (lastN n l) = lastN m l := by
  simp only [lastN, List.drop_drop, List.length_drop]
  congr 1
  omega

theorem drop_append_of_le {l₁ l₂ : List α} {k : ℕ} (h : k ≤ l₁.length) :
    (l₁ ++ l₂).drop k = l₁.drop k ++ l₂ := by
  rw [List.drop_append_eq_append_drop, Nat.sub_eq_zero_of_le h, List.drop_zero]

theorem lastN_append_right {l₁ l₂ : List α} {n : ℕ} (h : n ≤ l₂.length) :
    lastN n (l₁ ++ l₂) = lastN n l₂ := by
  simp only [lastN, List.length_append, List.drop_append_eq_append_drop]
  rw [List.drop_eq_nil_of_le (by omega)]
  simp only [List.nil_append]
  congr 1
  omega

theorem lastN_concat_lastN {n : ℕ} (hn : 0 < n) (l : List α) (x : α) :
    lastN n (lastN n l ++ [x]) = lastN n (l ++ [x]) := by
  by_cases h : l.length ≤ n
  · rw [lastN_of_le h]
  · simp only [lastN, List.length_append, List.length_drop, List.length_cons, List.length_nil]
    rw [drop_append_of_le (by simp; omega), drop_append_of_le (by simp; omega),
      List.drop_drop]
    congr 2
    omega

theorem record_level_eq (h : List ℚ) (x : ℚ) :
    record_level h x = lastN 20 (h ++ [x]) := by
  unfold record_level MAX_AUDIO_HISTORY
  by_cases hc : 20 < (h ++ [x]).length
  · rw [if_pos hc]
  · rw [if_neg hc, lastN_of_le (by omega)]

theorem record_level_foldl (h0 : List ℚ) (xs : List ℚ) (hh : h0.length ≤ 20) :
    List.foldl record_level h0 xs = lastN 20 (h0 ++ xs) := by
  induction xs using List.reverseRecOn with
  | nil => simpa using (lastN_of_le hh).symm
  | append_singleton ys y ih =>
    rw [List.foldl_append, ih, List.foldl_cons, List.foldl_nil,
      record_level_eq, lastN_concat_lastN (by omega),
      ← List.append_assoc]

theorem process_audio_chunk_flag (env : StageEnv) (s : PipelineState) :
    (process_audio_chunk env s).2.is_processing_audio = s.is_processing_audio := by
  unfold process_audio_chunk process_audio_chunk_body
  cases hq : s.queue with
  | nil => rfl
  | cons f rest =>
    dsimp only
    cases hy : (if s.prefs.sound_detection_enabled = true then env.yamnet else Except.ok []) with
    | error e => rfl
    | ok dets =>
      dsimp only
      split
      · rfl
      · rfl

theorem process_audio_chunk_sinks (env : StageEnv) (s : PipelineState) :
    (∃ new, (process_audio_chunk env s).2.sound_alerts = s.sound_alerts ++ new) ∧
    (process_audio_chunk env s).2.transcriptions = s.transcriptions := by
  unfold process_audio_chunk process_audio_chunk_body
  cases hq : s.queue with
  | nil => exact ⟨⟨[], by simp⟩, rfl⟩
  | cons f rest =>
    dsimp only
    cases hy : (if s.prefs.sound_detection_enabled = true then env.yamnet else Except.ok []) with
    | error e => exact ⟨⟨[], by simp⟩, rfl⟩
    | ok dets =>
      dsimp only
      split
      · exact ⟨⟨_, rfl⟩, rfl⟩
      · exact ⟨⟨_, rfl⟩, rfl⟩

theorem process_audio_chunk_ok (env : StageEnv) (dets : List SoundPred)
    (hy : env.yamnet = Except.ok dets)
    (f : AudioFrame) (rest : List AudioFrame) (hist : List ℚ) (tr : List Transcription)
    (sa : List SoundAlert) (ede dm ipa idp : Bool) (lrt : ℚ) (mt dt st : ℕ) :
    process_audio_chunk env
        ⟨f :: rest, hist, tr, sa, ⟨false, true, ede⟩, dm, ipa, idp, lrt, mt, dt, st⟩ =
      (true, ⟨rest, record_level hist env.audio_level, tr,
              sa ++ (dets.filter (fun p => 3/10 < p.confidence)).map
                (mk_alert env.now (frame_direction_info f)),
              ⟨false, true, ede⟩, dm, ipa, idp, lrt, mt, dt, st⟩) := by
  unfold process_audio_chunk process_audio_chunk_body
  rw [hy]
  rfl

theorem run_ticks_counts (env : StageEnv) (dets : List SoundPred)
    (hy : env.yamnet = Except.ok dets) :
    ∀ (n : ℕ) (f : AudioFrame) (hist : List ℚ) (tr : List Transcription)
      (sa : List SoundAlert) (ede dm idp : Bool) (lrt : ℚ) (mt dt st : ℕ),
      (run_loop (List.replicate n (LoopEvent.tick env))
          ⟨List.replicate n f, hist, tr, sa, ⟨false, true, ede⟩,
           dm, true, idp, lrt, mt, dt, st⟩).sound_alerts.length
        = sa.length + n * (dets.filter (fun p => 3/10 < p.confidence)).length := by
  intro n
  induction n with
  | zero => intro f hist tr sa ede dm idp lrt mt dt st; simp [run_loop]
  | succ m ih =>
    intro f hist tr sa ede dm idp lrt mt dt st
    rw [List.replicate_succ, List.replicate_succ]
    unfold run_loop
    rw [if_pos rfl]
    dsimp only
    rw [process_audio_chunk_ok env dets hy]
    dsimp only
    rw [ih f (record_level hist env.audio_level) tr
        (sa ++ (dets.filter (fun p => decide ((3:ℚ)/10 < p.confidence))).map
          (mk_alert env.now (frame_direction_info f))) ede dm idp lrt mt dt st]
    simp only [List.length_append, List.length_map]
    ring

theorem run_loop_ticks_foldl (envs : List StageEnv) :
    ∀ s : PipelineState, s.is_processing_audio = true →
      run_loop (envs.map LoopEvent.tick) s
        = List.foldl (fun t e => (process_audio_chunk e t).2) s envs := by
  induction envs with
  | nil => intro s _; rfl
  | cons e es ih =>
    intro s hflag
    rw [List.map_cons, List.foldl_cons]
    unfold run_loop
    rw [if_pos hflag]
    exact ih _ (by rw [process_audio_chunk_flag]; exact hflag)

theorem run_loop_stopped (evs : List LoopEvent) (s : PipelineState)
    (h : s.is_processing_audio = false) : run_loop evs s = s := by
  cases evs with
  | nil => rfl
  | cons e es =>
    unfold run_loop
    rw [if_neg (by simp [h])]

theorem process_speech_append (env : SpeechEnv) (s : PipelineState) :
    (∃ new, (process_speech env s).transcriptions = s.transcriptions ++ new) ∧
    (process_speech env s).sound_alerts = s.sound_alerts ∧
    (process_speech env s).audio_level_history = s.audio_level_history := by
  unfold process_speech
  cases hr : env.recognized with
  | error e => exact ⟨⟨[], by simp⟩, rfl, rfl⟩
  | ok text =>
    dsimp only
    split
    · exact ⟨⟨_, rfl⟩, rfl, rfl⟩
    · exact ⟨⟨[], by simp⟩, rfl, rfl⟩

/-- C1 (amended): the pipeline has no trim step for the Transcriptions and
SoundAlerts sinks.  Each `process_audio_chunk` iteration only appends the
qualifying detections to `sound_alerts` and leaves `transcriptions` alone,
and each `process_speech` dispatch only appends to `transcriptions` and
leaves `sound_alerts` alone: every previously retained item stays, in
order, so the most recent items are always at the tail but no cap is ever
enforced. -/
theorem c1_sinks_never_trimmed (env : StageEnv) (senv : SpeechEnv) (s : PipelineState) :
    (∃ new, (process_audio_chunk env s).2.sound_alerts = s.sound_alerts ++ new) ∧
    ((process_audio_chunk env s).2.transcriptions = s.transcriptions) ∧
    (∃ newT, (process_speech senv s).transcriptions = s.transcriptions ++ newT) ∧
    ((process_speech senv s).sound_alerts = s.sound_alerts) :=
  ⟨(process_audio_chunk_sinks env s).1, (process_audio_chunk_sinks env s).2,
    (process_speech_append senv s).1, (process_speech_append senv s).2.1⟩

/-- C1 (counterexample): starting from empty sinks, 101 pipeline iterations,
each appending one qualifying sound alert (`doorbell` at confidence 0.9),
leave the SoundAlerts sink holding 101 items — past the ~100-item cap the
claim says can never be exceeded after the trim step, because no trim step
exists in the code. -/
theorem c1_sinks_exceed_cap :
    (run_loop (List.replicate 101 (LoopEvent.tick c1_env)) c1_s0).sound_alerts.length = 101 ∧
    100 < (run_loop (List.replicate 101 (LoopEvent.tick c1_env)) c1_s0).sound_alerts.length := by
  have hy : c1_env.yamnet = Except.ok [⟨"doorbell", 9/10⟩] := rfl
  have h := run_ticks_counts c1_env [⟨"doorbell", 9/10⟩] hy 101 ⟨[[0]]⟩ [] [] []
    true false false 0 1 0 0
  have hfil : (([⟨"doorbell", 9/10⟩] : List SoundPred).filter
      (fun p => decide ((3:ℚ)/10 < p.confidence))).length = 1 := by
    have h310 : (3:ℚ)/10 < 9/10 := by norm_num
    simp [List.filter, h310]
  rw [hfil] at h
  have hs : c1_s0 = ⟨List.replicate 101 ⟨[[0]]⟩, [], [], [], ⟨false, true, true⟩,
      false, true, false, 0, 1, 0, 0⟩ := rfl
  rw [hs, h]
  norm_num

/-- C3 (confirmed): in the live loop, a queue-empty frame read makes the
iteration return `False` with the whole state — in particular the level
history and both sinks — unchanged; no iteration ever changes the
`is_processing_audio` flag, so with the flag set the loop processes every
scheduled tick (stage errors included, since every stage exception is
caught inside `process_audio_chunk`), and the loop exits exactly when the
flag has been cleared by an explicit stop. -/
theorem c3_stage_errors_isolated (env : StageEnv) (s : PipelineState) (envs : List StageEnv) :
    (s.queue = [] → process_audio_chunk env s = (false, s)) ∧
    ((process_audio_chunk env s).2.is_processing_audio = s.is_processing_audio) ∧
    (s.is_processing_audio = true →
      run_loop (envs.map LoopEvent.tick) s
        = List.foldl (fun t e => (process_audio_chunk e t).2) s envs) ∧
    (s.is_processing_audio = false → run_loop (envs.map LoopEvent.tick) s = s) := by
  refine ⟨?_, process_audio_chunk_flag env s, run_loop_ticks_foldl envs s, run_loop_stopped _ s⟩
  intro hq
  unfold process_audio_chunk process_audio_chunk_body
  rw [hq]

/-- C3 witness: a concrete empty-queue state with the loop flag set, and a
schedule containing a failing YAMNet stage. -/
theorem c3_stage_errors_isolated_witness :
    process_audio_chunk ⟨"t", 0, 1000, .error "stage failure"⟩
        ⟨[], [], [], [], ⟨true, true, true⟩, false, true, false, 0, 1, 0, 0⟩ =
      (false, ⟨[], [], [], [], ⟨true, true, true⟩, false, true, false, 0, 1, 0, 0⟩) ∧
    run_loop ([⟨"t", 0, 1000, .error "stage failure"⟩].map LoopEvent.tick)
        ⟨[], [], [], [], ⟨true, true, true⟩, false, true, false, 0, 1, 0, 0⟩ =
      List.foldl (fun t e => (process_audio_chunk e t).2)
        ⟨[], [], [], [], ⟨true, true, true⟩, false, true, false, 0, 1, 0, 0⟩
        [⟨"t", 0, 1000, .error "stage failure"⟩] := by
  have h := c3_stage_errors_isolated ⟨"t", 0, 1000, .error "stage failure"⟩
    ⟨[], [], [], [], ⟨true, true, true⟩, false, true, false, 0, 1, 0, 0⟩
    [⟨"t", 0, 1000, .error "stage failure"⟩]
  exact ⟨h.1 rfl, h.2.2.1 rfl⟩

theorem epsilon_pos : (0:ℚ) < epsilon := by norm_num [epsilon]

theorem detect_left (l r : List ℚ) (h : 11/10 < energy_ratio l r) :
    detect_sound_direction l r =
      ⟨270 - min 90 ((energy_ratio l r - 1) * 45), "left",
       min 1 (|1 - energy_ratio l r| * 2)⟩ := by
  unfold detect_sound_direction
  rw [if_pos h]

theorem detect_right (l r : List ℚ) (h : energy_ratio l r < 9/10) :
    detect_sound_direction l r =
      ⟨90 - (if energy_ratio l r = 0 then 90
             else min 90 ((1 / energy_ratio l r - 1) * 45)), "right",
       min 1 (|1 - energy_ratio l r| * 2)⟩ := by
  unfold detect_sound_direction
  rw [if_neg (by push_neg; linarith), if_pos h]

theorem detect_center (l r : List ℚ) (h1 : 9/10 ≤ energy_ratio l r)
    (h2 : energy_ratio l r ≤ 11/10) :
    detect_sound_direction l r =
      ⟨0, "center", min 1 (|1 - energy_ratio l r| * 2)⟩ := by
  unfold detect_sound_direction
  rw [if_neg (by push_neg; linarith), if_neg (by push_neg; linarith)]

theorem np_mean_abs_nonneg (xs : List ℚ) : 0 ≤ np_mean_abs xs := by
  unfold np_mean_abs
  apply div_nonneg
  · apply List.sum_nonneg
    intro x hx
    rw [List.mem_map] at hx
    obtain ⟨y, _, rfl⟩ := hx
    exact abs_nonneg y
  · positivity

/-- C2 (amended): `detect_sound_direction` computes
`ratio = leftEnergy / (rightEnergy + ε)` over the per-channel mean absolute
amplitudes and branches exactly as the claim states, with
`confidence = min(1, |1 - ratio| * 2)` in every branch; but (i) when the
computed ratio is 0 the right-branch angle comes out 0 through the IEEE
`1/0 = inf` saturation; (ii) equal channel energies give center/angle 0
only when the common energy exceeds `9ε` — an all-zero frame instead gives
"right" (see the counterexample); and (iii) `leftEnergy = 2 * rightEnergy`
gives direction left with angle `225 + 90ε/(rightEnergy + ε)`, which is
approximately — not exactly — 225. -/
theorem c2_direction_formula (l r : List ℚ) :
    (11/10 < energy_ratio l r →
      detect_sound_direction l r =
        ⟨270 - min 90 ((energy_ratio l r - 1) * 45), "left",
         min 1 (|1 - energy_ratio l r| * 2)⟩) ∧
    (energy_ratio l r < 9/10 → energy_ratio l r ≠ 0 →
      detect_sound_direction l r =
        ⟨90 - min 90 ((1 / energy_ratio l r - 1) * 45), "right",
         min 1 (|1 - energy_ratio l r| * 2)⟩) ∧
    (energy_ratio l r = 0 → detect_sound_direction l r = ⟨0, "right", 1⟩) ∧
    (9/10 ≤ energy_ratio l r → energy_ratio l r ≤ 11/10 →
      detect_sound_direction l r = ⟨0, "center", min 1 (|1 - energy_ratio l r| * 2)⟩) ∧
    (np_mean_abs l = np_mean_abs r → 9 * epsilon < np_mean_abs l →
      detect_sound_direction l r = ⟨0, "center", min 1 (|1 - energy_ratio l r| * 2)⟩) ∧
    (np_mean_abs l = 2 * np_mean_abs r → 11 * epsilon < 9 * np_mean_abs r →
      (detect_sound_direction l r).direction = "left" ∧
      (detect_sound_direction l r).angle
        = 225 + 90 * epsilon / (np_mean_abs r + epsilon)) := by
  have heps : (0:ℚ) < epsilon := epsilon_pos
  have hRnn : 0 ≤ np_mean_abs r := np_mean_abs_nonneg r
  have hden : 0 < np_mean_abs r + epsilon := by linarith
  refine ⟨detect_left l r, ?_, ?_, detect_center l r, ?_, ?_⟩
  · intro h hne
    rw [detect_right l r h, if_neg hne]
  · intro h0
    have h9 : energy_ratio l r < 9/10 := by rw [h0]; norm_num
    rw [detect_right l r h9, if_pos h0, h0]
    norm_num
  · intro heq h9
    have hq1 : energy_ratio l r ≤ 1 := by
      unfold energy_ratio
      rw [div_le_one hden, heq]
      linarith
    have hq9 : 9/10 < energy_ratio l r := by
      unfold energy_ratio
      rw [lt_div_iff₀ hden, heq]
      linarith [heq ▸ h9]
    exact detect_center l r (le_of_lt hq9) (by linarith)
  · intro h2R hR
    have hRpos : 0 < np_mean_abs r := by linarith
    have hql : 11/10 < energy_ratio l r := by
      unfold energy_ratio
      rw [lt_div_iff₀ hden, h2R]
      linarith
    have hq2 : energy_ratio l r ≤ 2 := by
      unfold energy_ratio
      rw [div_le_iff₀ hden, h2R]
      linarith
    rw [detect_left l r hql]
    refine ⟨rfl, ?_⟩
    have hmin : min (90:ℚ) ((energy_ratio l r - 1) * 45) = (energy_ratio l r - 1) * 45 := by
      rw [min_eq_right]
      linarith
    dsimp only
    rw [hmin]
    unfold energy_ratio
    rw [h2R]
    field_simp
    ring

/-- C2 witness: two equal channels of energy 1 land in the center branch
with angle 0. -/
theorem c2_direction_formula_witness :
    detect_sound_direction [1, 1] [1, 1] =
      ⟨0, "center", min 1 (|1 - energy_ratio [1, 1] [1, 1]| * 2)⟩ := by
  have h1 : np_mean_abs [(1:ℚ), 1] = 1 := by norm_num [np_mean_abs]
  exact (c2_direction_formula [1, 1] [1, 1]).2.2.2.2.1 rfl (by rw [h1]; norm_num [epsilon])

/-- C2 (counterexample): an all-zero stereo frame has equal left and right
energies, yet the code returns direction "right" (ratio 0 falls in the
`< 0.9` branch), not "center"; and a frame with `leftEnergy/rightEnergy`
exactly 2 returns an angle strictly greater than 225 (the ε in the
denominator shifts it), so the claimed exact angle 225 does not hold. -/
theorem c2_direction_spec_false :
    (detect_sound_direction (List.replicate 4 0) (List.replicate 4 0)).direction = "right" ∧
    "right" ≠ "center" ∧
    (detect_sound_direction [1] [(1:ℚ)/2]).direction = "left" ∧
    (detect_sound_direction [1] [(1:ℚ)/2]).angle ≠ 225 := by
  have hz : energy_ratio (List.replicate 4 0) (List.replicate 4 0) = 0 := by
    norm_num [energy_ratio, np_mean_abs]
  have habs : |(1:ℚ)/2| = 1/2 := abs_of_nonneg (by norm_num)
  have hq : energy_ratio [1] [(1:ℚ)/2] = 10000000000 / 5000000001 := by
    norm_num [energy_ratio, np_mean_abs, epsilon, habs]
  refine ⟨?_, by decide, ?_, ?_⟩
  · rw [detect_right _ _ (by rw [hz]; norm_num)]
  · rw [detect_left _ _ (by rw [hq]; norm_num)]
  · rw [detect_left _ _ (by rw [hq]; norm_num), hq]
    have hmin : min (90:ℚ) (((10000000000:ℚ) / 5000000001 - 1) * 45) =
        ((10000000000:ℚ) / 5000000001 - 1) * 45 := by
      rw [min_eq_right]
      norm_num
    dsimp only
    rw [hmin]
    norm_num

theorem set_demo_mode_throttled (m : Bool) (t : ℚ) (s : PipelineState)
    (h : s.last_restart_time ≠ 0 ∧ t - s.last_restart_time < 2) :
    set_demo_mode m t s =
      (⟨false, some "Please wait before changing mode again", s.demo_mode⟩, s) := by
  unfold set_demo_mode
  rw [if_pos h]

/-- C4 (confirmed): after an accepted mode transition at time `t0`, a second
`set_demo_mode` call at any time `t1` with `t1 - t0 < 2` is throttled: it
returns `success = false` and leaves the entire state — mode flag,
processing flags, thread counters — exactly as the first call left it. -/
theorem c4_set_mode_throttled (m1 m2 : Bool) (t0 t1 : ℚ) (s : PipelineState)
    (hacc : s.last_restart_time = 0 ∨ 2 ≤ t0 - s.last_restart_time)
    (hm : m1 ≠ s.demo_mode) (ht0 : t0 ≠ 0) (hlt : t1 - t0 < 2) :
    (set_demo_mode m2 t1 (set_demo_mode m1 t0 s).2).1.success = false ∧
    (set_demo_mode m2 t1 (set_demo_mode m1 t0 s).2).2 = (set_demo_mode m1 t0 s).2 ∧
    (set_demo_mode m1 t0 s).2.demo_mode = m1 := by
  have hnothr : ¬(s.last_restart_time ≠ 0 ∧ t0 - s.last_restart_time < 2) := by
    rcases hacc with h | h
    · exact fun hc => hc.1 h
    · exact fun hc => absurd hc.2 (not_lt.mpr h)
  have hfirst : (set_demo_mode m1 t0 s).2.last_restart_time = t0 ∧
      (set_demo_mode m1 t0 s).2.demo_mode = m1 := by
    unfold set_demo_mode
    rw [if_neg hnothr, if_pos hm]
    constructor
    · rfl
    · dsimp only
      repeat' split
      all_goals rfl
  have hthr2 : (set_demo_mode m1 t0 s).2.last_restart_time ≠ 0 ∧
      t1 - (set_demo_mode m1 t0 s).2.last_restart_time < 2 := by
    rw [hfirst.1]
    exact ⟨ht0, hlt⟩
  have h2 := set_demo_mode_throttled m2 t1 _ hthr2
  rw [h2]
  exact ⟨rfl, rfl, hfirst.2⟩

/-- C4 witness: a fresh live-mode state, an accepted switch to demo at
t = 10, and a second call at t = 11 (within the 2-second cooldown). -/
theorem c4_set_mode_throttled_witness :
    (set_demo_mode false 11 (set_demo_mode true 10
        ⟨[], [], [], [], ⟨true, true, true⟩, false, false, false, 0, 0, 0, 0⟩).2).1.success
      = false ∧
    (set_demo_mode false 11 (set_demo_mode true 10
        ⟨[], [], [], [], ⟨true, true, true⟩, false, false, false, 0, 0, 0, 0⟩).2).2
      = (set_demo_mode true 10
        ⟨[], [], [], [], ⟨true, true, true⟩, false, false, false, 0, 0, 0, 0⟩).2 ∧
    (set_demo_mode true 10
        ⟨[], [], [], [], ⟨true, true, true⟩, false, false, false, 0, 0, 0, 0⟩).2.demo_mode
      = true :=
  c4_set_mode_throttled true false 10 11
    ⟨[], [], [], [], ⟨true, true, true⟩, false, false, false, 0, 0, 0, 0⟩
    (Or.inl rfl) (by decide) (by norm_num) (by norm_num)

/-- C5 (amended): a frame with fewer than two channels never reaches
`detect_sound_direction`; the pipeline keeps the default direction info —
direction "center" (not "unknown"), angle 0, confidence 0 — and no error is
raised (the embedding is total). -/
theorem c5_mono_frame_center (f : AudioFrame) (h : f.cols.length < 2) :
    frame_direction_info f = ⟨0, "center", 0⟩ := by
  unfold frame_direction_info
  match hc : f.cols with
  | [] => rfl
  | [c0] => rfl
  | c0 :: c1 :: rest => rw [hc] at h; simp at h; omega

/-- C5 witness: a concrete one-channel frame. -/
theorem c5_mono_frame_center_witness :
    frame_direction_info ⟨[[1, 2]]⟩ = ⟨0, "center", 0⟩ :=
  c5_mono_frame_center ⟨[[1, 2]]⟩ (by decide)

/-- C5 (counterexample): for a concrete mono frame the pipeline's direction
info is "center", not the claimed "unknown". -/
theorem c5_mono_frame_not_unknown :
    (frame_direction_info ⟨[[1, 2]]⟩).direction ≠ "unknown" ∧
    (frame_direction_info ⟨[[1, 2]]⟩).direction = "center" := by
  constructor
  · intro h
    simp [frame_direction_info] at h
  · rfl

/-- C6 (amended): starting from the 20-element seeded history, every
sequence of recorded levels keeps the history length at `MAX_AUDIO_HISTORY`
(= 20) or below at all times; the history is always the last 20 elements of
the seed followed by the recorded levels; its trailing `min(count, 20)`
entries are exactly the last `min(count, 20)` recorded levels in call order
(oldest dropped FIFO); and once `count ≥ 20` the history equals exactly the
last 20 recorded levels.  For `count < 20` the snapshot still contains
`20 - count` leftover seed values, so it is not just the recorded levels
(see the counterexample). -/
theorem c6_history_bounded (h0 : List ℚ) (xs : List ℚ) (hh : h0.length = 20) :
    (∀ n : ℕ, (List.foldl record_level h0 (xs.take n)).length ≤ MAX_AUDIO_HISTORY) ∧
    (List.foldl record_level h0 xs = lastN 20 (h0 ++ xs)) ∧
    (lastN (min xs.length 20) (List.foldl record_level h0 xs)
      = lastN (min xs.length 20) xs) ∧
    (20 ≤ xs.length → List.foldl record_level h0 xs = lastN 20 xs) := by
  have hfold : List.foldl record_level h0 xs = lastN 20 (h0 ++ xs) :=
    record_level_foldl h0 xs (by omega)
  have htail : lastN (min xs.length 20) (List.foldl record_level h0 xs)
      = lastN (min xs.length 20) xs := by
    rw [hfold, lastN_lastN (by omega), lastN_append_right (by omega)]
  refine ⟨?_, hfold, htail, ?_⟩
  · intro n
    rw [record_level_foldl h0 (xs.take n) (by omega), lastN_length]
    unfold MAX_AUDIO_HISTORY
    omega
  · intro hlen
    rw [hfold, lastN_append_right (by omega)]

/-- C6 witness: recording ten levels onto a possible 20-element seed keeps
the history equal to the last 20 elements of seed plus records. -/
theorem c6_history_bounded_witness :
    List.foldl record_level (List.replicate 20 0) [1, 2, 3, 4, 5, 6, 7, 8, 9, 10]
      = lastN 20 (List.replicate 20 0 ++ [1, 2, 3, 4, 5, 6, 7, 8, 9, 10]) :=
  (c6_history_bounded (List.replicate 20 0) [1, 2, 3, 4, 5, 6, 7, 8, 9, 10] (by simp)).2.1

/-- C6 (counterexample): `audio_level_history` starts as 20 random values
in `[0, 0.1)` (line 226) — take the possible seed of twenty 0.05 entries.
After one `record(1.0)` the snapshot has 20 entries, not the claimed
`min(count, N) = 1`, so the snapshot is not "the last min(count, N)
recorded levels". -/
theorem c6_snapshot_keeps_seed :
    List.foldl record_level (List.replicate 20 ((1:ℚ)/20)) [1] ≠ [1] ∧
    (List.foldl record_level (List.replicate 20 ((1:ℚ)/20)) [1]).length = 20 := by
  have h : List.foldl record_level (List.replicate 20 ((1:ℚ)/20)) [1]
      = lastN 20 (List.replicate 20 ((1:ℚ)/20) ++ [1]) :=
    record_level_foldl _ _ (by simp)
  constructor
  · rw [h]
    intro hc
    have hlen := congrArg List.length hc
    rw [lastN_length] at hlen
    simp at hlen
  · rw [h, lastN_length]
    simp

/-- C7 (confirmed): on the input text "happy" the fallback analysis scores
`happy = 1` and `neutral = 1` (the keyword "a" occurs inside "happy") and
every other category 0; the tie is broken in favor of "happy", the first
maximal category in table-iteration order, with
`confidence = min(0.7, score/(totalScore + 1) * 0.7) = 7/30 ≤ 0.7` and
`intensity = confidence * 0.8`. -/
theorem c7_fallback_happy :
    (provide_fallback_emotion_analysis "happy").emotion = "happy" ∧
    (provide_fallback_emotion_analysis "happy").confidence
      = min (7/10) ((1:ℚ) / ((2:ℚ) + 1) * (7/10)) ∧
    (provide_fallback_emotion_analysis "happy").confidence ≤ 7/10 ∧
    (provide_fallback_emotion_analysis "happy").intensity
      = (provide_fallback_emotion_analysis "happy").confidence * (8/10) ∧
    emotion_scores (py_lower "happy")
      = [("happy", 1), ("excited", 0), ("sad", 0), ("angry", 0),
         ("surprised", 0), ("confused", 0), ("neutral", 1)] := by
  have hscores : emotion_scores (py_lower "happy")
      = [("happy", 1), ("excited", 0), ("sad", 0), ("angry", 0),
         ("surprised", 0), ("confused", 0), ("neutral", 1)] := by decide
  have hmain : provide_fallback_emotion_analysis "happy" =
      ⟨"happy", min (7/10) ((1:ℚ) / ((2:ℚ) + 1) * (7/10)),
       min (7/10) ((1:ℚ) / ((2:ℚ) + 1) * (7/10)) * (8/10),
       "Basic keyword detection found happy indicators", "fallback"⟩ := by
    unfold provide_fallback_emotion_analysis
    dsimp only
    rw [hscores]
    rw [if_neg (by decide)]
    have hmax : argmax_first
        [("happy", 1), ("excited", 0), ("sad", 0), ("angry", 0),
         ("surprised", 0), ("confused", 0), ("neutral", 1)] = ("happy", 1) := by decide
    rw [hmax]
    norm_num
    rfl
  rw [hmain]
  refine ⟨rfl, rfl, min_le_left _ _, rfl, hscores⟩

/-- C8 (confirmed): when no keyword of the fallback table occurs in the
lowered text, every category scores 0 and the analysis returns exactly
emotion "neutral" with confidence 0.5 (and intensity 0.4). -/
theorem c8_fallback_neutral (text : String)
    (h : ∀ p ∈ emotion_keywords, ∀ k ∈ p.2, occursIn k.data (py_lower text).data = false) :
    provide_fallback_emotion_analysis text =
      ⟨"neutral", 1/2, (1/2) * (8/10),
       "No clear emotion markers detected in text", "fallback"⟩ := by
  have hall : (emotion_scores (py_lower text)).all (fun p => p.2 == 0) = true := by
    rw [List.all_eq_true]
    intro p hp
    rw [emotion_scores, List.mem_map] at hp
    obtain ⟨q, hq, rfl⟩ := hp
    simp only [beq_iff_eq]
    rw [keyword_score, List.countP_eq_zero]
    intro k hk
    simp [h q hq k hk]
  unfold provide_fallback_emotion_analysis
  dsimp only
  rw [if_pos hall]

/-- C8 witness: the text "xyz" contains no keyword from the table. -/
theorem c8_fallback_neutral_witness :
    provide_fallback_emotion_analysis "xyz" =
      ⟨"neutral", 1/2, (1/2) * (8/10),
       "No clear emotion markers detected in text", "fallback"⟩ :=
  c8_fallback_neutral "xyz" (by decide)

/-- C9 (confirmed): `stop_processing` on an already-stopped pipeline
returns "not_running" and changes nothing, on the first and on any
immediately repeated call; `start_processing` while the microphone loop is
already running (live mode, `is_processing_audio` set) returns
"already_running" and leaves the state — in particular the `mic_threads`
loop counter — untouched, so no second concurrent loop is spawned and the
number of active loops stays at 1. -/
theorem c9_start_stop_idempotent (s : PipelineState) (now : ℚ) :
    (s.is_processing_audio = false →
      stop_processing s = (⟨"not_running", none, none⟩, s) ∧
      stop_processing (stop_processing s).2 = (⟨"not_running", none, none⟩, s)) ∧
    (s.demo_mode = false → s.is_processing_audio = true →
      start_processing now s = (⟨"already_running", none, some s.demo_mode⟩, s)) := by
  constructor
  · intro h
    have h1 : stop_processing s = (⟨"not_running", none, none⟩, s) := by
      unfold stop_processing
      rw [if_neg (by simp [h])]
    exact ⟨h1, by rw [h1]; exact h1⟩
  · intro hdm hrun
    unfold start_processing
    rw [if_neg (by simp [hdm]), if_neg (by simp [hrun])]

/-- C9 witness: a concrete stopped state and a concrete running state with
one live loop. -/
theorem c9_start_stop_idempotent_witness :
    stop_processing ⟨[], [], [], [], ⟨true, true, true⟩, false, false, false, 0, 0, 0, 0⟩
      = (⟨"not_running", none, none⟩,
         ⟨[], [], [], [], ⟨true, true, true⟩, false, false, false, 0, 0, 0, 0⟩) ∧
    start_processing 5 ⟨[], [], [], [], ⟨true, true, true⟩, false, true, false, 0, 1, 0, 0⟩
      = (⟨"already_running", none, some false⟩,
         ⟨[], [], [], [], ⟨true, true, true⟩, false, true, false, 0, 1, 0, 0⟩) :=
  ⟨((c9_start_stop_idempotent
      ⟨[], [], [], [], ⟨true, true, true⟩, false, false, false, 0, 0, 0, 0⟩ 5).1 rfl).1,
   (c9_start_stop_idempotent
      ⟨[], [], [], [], ⟨true, true, true⟩, false, true, false, 0, 1, 0, 0⟩ 5).2 rfl rfl⟩

/-- C10 (confirmed): with demo mode enabled, `start_processing` returns
status "ignored" with the message "Cannot start microphone in demo mode"
and leaves the whole state unchanged — `is_processing_audio` stays false if
it was false and no microphone thread is spawned — regardless of
`last_restart_time`, since the demo guard precedes the throttle check. -/
theorem c10_start_ignored_in_demo (now : ℚ) (s : PipelineState) (h : s.demo_mode = true) :
    start_processing now s =
      (⟨"ignored", some "Cannot start microphone in demo mode", some true⟩, s) := by
  unfold start_processing
  rw [if_pos (by simp [h]), h]

/-- C10 witness: a concrete demo-mode state with a throttle timer mid-window. -/
theorem c10_start_ignored_in_demo_witness :
    start_processing 1 ⟨[], [], [], [], ⟨true, true, true⟩, true, false, false, 0, 0, 1, 0⟩
      = (⟨"ignored", some "Cannot start microphone in demo mode", some true⟩,
         ⟨[], [], [], [], ⟨true, true, true⟩, true, false, false, 0, 0, 1, 0⟩) :=
  c10_start_ignored_in_demo 1
    ⟨[], [], [], [], ⟨true, true, true⟩, true, false, false, 0, 0, 1, 0⟩ rfl
